import Mathlib

/-!
Verification of the rule-based HVAC controller in `rule_based.py`.

The controller maps a 15-element observation vector (of which only
index 0 = month, index 7 = indoor air temperature, index 10 = indoor CO2
are consumed) plus two patience counters to a discrete action index in
[0, 39] and updated counters.

Modelling conventions:
* Python floats are modelled as rationals (ℚ).  All constants of the
  program (table entries, thresholds, 0.5, 0.75, …) are exactly
  representable, and the program only compares, adds, halves and floors
  them, so the embedding is exact.
* `np.argmin` over a vector of Euclidean norms is modelled as the first
  index attaining the minimum of the squared distances; since `√` is
  strictly monotone on nonnegative numbers, the first-minimum index over
  norms and over squared norms coincide.
* Python `int()` truncates toward zero; Python `//` is floor division
  (`Int.fdiv`).
-/

namespace RuleBased

/-- The 40-entry discrete action table `DISCRETE_ACTIONS`
(heating setpoint, cooling setpoint, fan flag, window-fan speed). -/
def DISCRETE_ACTIONS : List (ℚ × ℚ × ℚ × ℚ) :=
  [ (21, 22, 1, 0), (21, 22, 1, 1/2), (21, 22, 1, 3/4), (21, 22, 1, 1),
    (22, 23, 1, 0), (22, 23, 1, 1/2), (22, 23, 1, 3/4), (22, 23, 1, 1),
    (23, 24, 1, 0), (23, 24, 1, 1/2), (23, 24, 1, 3/4), (23, 24, 1, 1),
    (24, 25, 1, 0), (24, 25, 1, 1/2), (24, 25, 1, 3/4), (24, 25, 1, 1),
    (25, 26, 1, 0), (25, 26, 1, 1/2), (25, 26, 1, 3/4), (25, 26, 1, 1),
    (26, 27, 1, 0), (26, 27, 1, 1/2), (26, 27, 1, 3/4), (26, 27, 1, 1),
    (27, 28, 1, 0), (27, 28, 1, 1/2), (27, 28, 1, 3/4), (27, 28, 1, 1),
    (28, 29, 1, 0), (28, 29, 1, 1/2), (28, 29, 1, 3/4), (28, 29, 1, 1),
    (29, 30, 1, 0), (29, 30, 1, 1/2), (29, 30, 1, 3/4), (29, 30, 1, 1),
    (5, 50, 0, 0), (5, 50, 0, 1/2), (5, 50, 0, 3/4), (5, 50, 0, 1) ]

/-- The 10-entry temperature-setpoint-pair table `DISCRETE_ACTIONS_TEMP`;
index 0 is the off-like pair. -/
def DISCRETE_ACTIONS_TEMP : List (ℚ × ℚ) :=
  [ (5, 50), (21, 22), (22, 23), (23, 24), (24, 25),
    (25, 26), (26, 27), (27, 28), (28, 29), (29, 30) ]

/-- The 4-entry window-fan-speed table `DISCRETE_ACTIONS_CO2`. -/
def DISCRETE_ACTIONS_CO2 : List ℚ := [0, 1/2, 3/4, 1]

/-- `TEMP_THRESHOLD = 1`: steps before patience bumps the discrete index. -/
def TEMP_THRESHOLD : ℤ := 1

/-- First index of the minimum of a list of rationals (the semantics of
`np.argmin`, which returns the first occurrence of the minimum). -/
def argminIdx : List ℚ → ℕ
  | [] => 0
  | x :: xs => if xs.getD (argminIdx xs) x < x then argminIdx xs + 1 else 0

/-- Squared Euclidean distance between two 4-vectors. -/
def sqDist4 (a b : ℚ × ℚ × ℚ × ℚ) : ℚ :=
  (a.1 - b.1) * (a.1 - b.1) + (a.2.1 - b.2.1) * (a.2.1 - b.2.1) +
  (a.2.2.1 - b.2.2.1) * (a.2.2.1 - b.2.2.1) + (a.2.2.2 - b.2.2.2) * (a.2.2.2 - b.2.2.2)

/-- Squared Euclidean distance between two 2-vectors. -/
def sqDist2 (a b : ℚ × ℚ) : ℚ :=
  (a.1 - b.1) * (a.1 - b.1) + (a.2 - b.2) * (a.2 - b.2)

/-- The controller class: configuration stored by `__init__`
(`winter_months`, default `(11, 12, 1, 2, 3)`, and `temp_margin`,
default `0.5`; the source stores `temp_margin` but `act` never reads it). -/
structure RuleBasedControllerDiscrete where
  winter_months : List ℤ := [11, 12, 1, 2, 3]
  temp_margin : ℚ := 1/2

/-- A controller built with the default configuration. -/
def defaultController : RuleBasedControllerDiscrete := {}

/-- `_get_comfort_range`: (low, high) comfort temperature range by month. -/
def RuleBasedControllerDiscrete.get_comfort_range
    (c : RuleBasedControllerDiscrete) (month : ℤ) : ℚ × ℚ :=
  if month ∈ c.winter_months then (20, 23) else (23, 26)

/-- `_decide_window_fan_speed`: piecewise WF speed from the CO2 level. -/
def decide_window_fan_speed (co2 : ℚ) : ℚ :=
  if co2 < 800 then 0
  else if co2 < 1000 then 1/2
  else if co2 < 1200 then 3/4
  else 1

/-- `_find_best_action_index`: index of the `DISCRETE_ACTIONS` entry closest
(Euclidean) to the desired 4-vector, first index on ties. -/
def find_best_action_index (desired : ℚ × ℚ × ℚ × ℚ) : ℕ :=
  argminIdx (DISCRETE_ACTIONS.map (fun a => sqDist4 a desired))

/-- `_find_best_action_index_temp`: closest index in `DISCRETE_ACTIONS_TEMP`. -/
def find_best_action_index_temp (p : ℚ × ℚ) : ℕ :=
  argminIdx (DISCRETE_ACTIONS_TEMP.map (fun a => sqDist2 a p))

/-- `_find_best_action_index_co2`: closest index in `DISCRETE_ACTIONS_CO2`
by absolute difference. -/
def find_best_action_index_co2 (w : ℚ) : ℕ :=
  argminIdx (DISCRETE_ACTIONS_CO2.map (fun a => |a - w|))

/-- Python `int()` applied to a float: truncation toward zero. -/
def pyInt (q : ℚ) : ℤ := if 0 ≤ q then ⌊q⌋ else ⌈q⌉

/-- Patience update for temperature (`act`, step "Update patience counters"):
increment when strictly outside the band, else reset to 0. -/
def updated_temp_patience (t_low t_high air_temp : ℚ) (tp : ℤ) : ℤ :=
  if air_temp > t_high ∨ air_temp < t_low then tp + 1 else 0

/-- Patience update for CO2: increment when CO2 > 800, else reset to 0. -/
def updated_co2_patience (air_co2 : ℚ) (cp : ℤ) : ℤ :=
  if air_co2 > 800 then cp + 1 else 0

/-- `act` step 2: decide whether the AC is on (too hot or too cold). -/
def ac_on (t_low t_high air_temp : ℚ) : Bool :=
  if air_temp > t_high then true
  else if air_temp < t_low then true
  else false

/-- `act` step 4: base heating/cooling setpoints and fan flag.
When on: heating = clip(floor(midpoint), 21, 29), cooling =
clip(heating + 1, 22, 30), fan = 1; when off: (5, 50, 0). -/
def base_setpoints (t_low t_high : ℚ) (acIsOn : Bool) : ℚ × ℚ × ℚ :=
  if acIsOn then
    let target_temp : ℚ := (1/2) * (t_low + t_high)
    let heating_sp : ℚ := min (max ((⌊target_temp⌋ : ℤ) : ℚ) 21) 29
    let cooling_sp : ℚ := min (max (heating_sp + 1) 22) 30
    (heating_sp, cooling_sp, 1)
  else (5, 50, 0)

/-- `act` step 5: the temperature-table index after patience escalation and
the final clamp to the table's valid range. -/
def temp_index_of (t_low t_high air_temp : ℚ) (utp : ℤ) (acIsOn : Bool) : ℤ :=
  let bs := base_setpoints t_low t_high acIsOn
  let base : ℤ := find_best_action_index_temp (bs.1, bs.2.1)
  let residual : ℤ := Int.fdiv utp TEMP_THRESHOLD
  let idx : ℤ :=
    if !acIsOn then 0
    else if air_temp > t_high then max (base - residual) 1
    else if air_temp < t_low then
      min (base + residual) ((DISCRETE_ACTIONS_TEMP.length : ℤ) - 1)
    else base
  max 0 (min idx ((DISCRETE_ACTIONS_TEMP.length : ℤ) - 1))

/-- `act` step 5 (CO2 side): the window-fan index after monotone patience
escalation and the final clamp to the table's valid range. -/
def co2_index_of (wf_speed : ℚ) (ucp : ℤ) : ℤ :=
  let base : ℤ := find_best_action_index_co2 wf_speed
  let residual : ℤ := Int.fdiv ucp TEMP_THRESHOLD
  let idx : ℤ := min (base + residual) ((DISCRETE_ACTIONS_CO2.length : ℤ) - 1)
  max 0 (min idx ((DISCRETE_ACTIONS_CO2.length : ℤ) - 1))

/-- `act` step 6: the final desired continuous 4-D action, read back from
the per-axis tables at the escalated indices. -/
def desired_action_of (t_low t_high air_temp air_co2 : ℚ) (utp ucp : ℤ) :
    ℚ × ℚ × ℚ × ℚ :=
  let acIsOn := ac_on t_low t_high air_temp
  let wf_speed := decide_window_fan_speed air_co2
  let ti := temp_index_of t_low t_high air_temp utp acIsOn
  let ci := co2_index_of wf_speed ucp
  let pair := DISCRETE_ACTIONS_TEMP.getD ti.toNat (0, 0)
  let fan := (base_setpoints t_low t_high acIsOn).2.2
  (pair.1, pair.2, fan, DISCRETE_ACTIONS_CO2.getD ci.toNat 0)

/-- `act` on the unpacked observation fields: returns the action index
(with the defensive clamp to the last valid index) and both updated
patience counters. -/
def actCore (c : RuleBasedControllerDiscrete) (month : ℤ)
    (air_temp air_co2 : ℚ) (tp cp : ℤ) : ℕ × ℤ × ℤ :=
  let r := c.get_comfort_range month
  let utp := updated_temp_patience r.1 r.2 air_temp tp
  let ucp := updated_co2_patience air_co2 cp
  let a := find_best_action_index (desired_action_of r.1 r.2 air_temp air_co2 utp ucp)
  (if DISCRETE_ACTIONS.length ≤ a then DISCRETE_ACTIONS.length - 1 else a, utp, ucp)

/-- `act`: unpack month, air temperature and CO2 from the observation
vector (indices 0, 7, 10) and run the policy. -/
def act (c : RuleBasedControllerDiscrete) (obs : Fin 15 → ℚ) (tp cp : ℤ) :
    ℕ × ℤ × ℤ :=
  actCore c (pyInt (obs 0)) (obs 7) (obs 10) tp cp

/-- Modelled from the spec: the margin-variant climate-active decision.  The
spec documents a second, stateless controller implementation (absent from the
sources verified here) whose activation rule uses the configurable
`temp_margin` that `RuleBasedControllerDiscrete.__init__` declares with
default `0.5`: active iff the temperature exceeds the high comfort bound by
more than the margin or falls below the low bound by more than the margin. -/
def margin_ac_on (m t_low t_high air_temp : ℚ) : Bool :=
  if air_temp > t_high + m then true
  else if air_temp < t_low - m then true
  else false

/-- `argminIdx` of a nonempty list is a valid index into the list. -/
theorem argminIdx_lt_length (l : List ℚ) (h : l ≠ []) : argminIdx l < l.length := by
  induction l with
  | nil => exact absurd rfl h
  | cons x xs ih =>
    rw [argminIdx]
    by_cases hc : xs.getD (argminIdx xs) x < x
    · rw [if_pos hc]
      cases xs with
      | nil =>
        rw [List.getD_nil] at hc
        exact absurd hc (lt_irrefl x)
      | cons y ys =>
        have h2 := ih (List.cons_ne_nil y ys)
        simpa using Nat.succ_lt_succ h2
    · rw [if_neg hc]
      simp

/-- The 4-D quantizer always returns an index below 40. -/
theorem find_best_action_index_lt (d : ℚ × ℚ × ℚ × ℚ) :
    find_best_action_index d < 40 := by
  have h := argminIdx_lt_length (DISCRETE_ACTIONS.map (fun a => sqDist4 a d))
    (by simp [DISCRETE_ACTIONS])
  have hlen : DISCRETE_ACTIONS.length = 40 := rfl
  rw [List.length_map, hlen] at h
  exact h

/-- The 2-D quantizer always returns an index below 10. -/
theorem find_best_action_index_temp_lt (p : ℚ × ℚ) :
    find_best_action_index_temp p < 10 := by
  have h := argminIdx_lt_length (DISCRETE_ACTIONS_TEMP.map (fun a => sqDist2 a p))
    (by simp [DISCRETE_ACTIONS_TEMP])
  have hlen : DISCRETE_ACTIONS_TEMP.length = 10 := rfl
  rw [List.length_map, hlen] at h
  exact h

/-- The 1-D quantizer always returns an index below 4. -/
theorem find_best_action_index_co2_lt (w : ℚ) :
    find_best_action_index_co2 w < 4 := by
  have h := argminIdx_lt_length (DISCRETE_ACTIONS_CO2.map (fun a => |a - w|))
    (by simp [DISCRETE_ACTIONS_CO2])
  have hlen : DISCRETE_ACTIONS_CO2.length = 4 := rfl
  rw [List.length_map, hlen] at h
  exact h

/-- The action index `act` returns is the raw quantizer output: the
defensive clamp branch is dead because the quantizer output is below 40. -/
theorem act_fst (c : RuleBasedControllerDiscrete) (obs : Fin 15 → ℚ) (tp cp : ℤ) :
    (act c obs tp cp).1 = find_best_action_index
      (desired_action_of (c.get_comfort_range (pyInt (obs 0))).1
        (c.get_comfort_range (pyInt (obs 0))).2 (obs 7) (obs 10)
        (updated_temp_patience (c.get_comfort_range (pyInt (obs 0))).1
          (c.get_comfort_range (pyInt (obs 0))).2 (obs 7) tp)
        (updated_co2_patience (obs 10) cp)) := by
  have h := find_best_action_index_lt
    (desired_action_of (c.get_comfort_range (pyInt (obs 0))).1
      (c.get_comfort_range (pyInt (obs 0))).2 (obs 7) (obs 10)
      (updated_temp_patience (c.get_comfort_range (pyInt (obs 0))).1
        (c.get_comfort_range (pyInt (obs 0))).2 (obs 7) tp)
      (updated_co2_patience (obs 10) cp))
  simp only [act, actCore]
  rw [if_neg]
  have hlen : DISCRETE_ACTIONS.length = 40 := rfl
  rw [hlen]
  omega

/-- Claim C1: the margin-variant climate-active decision, configured with
margin m, is active iff the temperature exceeds the high bound by more than
m or falls below the low bound by more than m; at exactly low−m or high+m it
is inactive, and at low−m−0.01 or high+m+0.01 it is active. -/
theorem margin_activation_spec (m t_low t_high air_temp : ℚ)
    (hm : 0 ≤ m) (hlh : t_low ≤ t_high) :
    (margin_ac_on m t_low t_high air_temp = true ↔
      (air_temp > t_high + m ∨ air_temp < t_low - m)) ∧
    margin_ac_on m t_low t_high (t_low - m) = false ∧
    margin_ac_on m t_low t_high (t_high + m) = false ∧
    margin_ac_on m t_low t_high (t_low - m - 1/100) = true ∧
    margin_ac_on m t_low t_high (t_high + m + 1/100) = true := by
  refine ⟨?_, ?_, ?_, ?_, ?_⟩ <;> unfold margin_ac_on
  · split_ifs with h1 h2
    · simp [h1]
    · simp [h2]
    · simp [h1, h2]
  · split_ifs with h1 h2
    · exfalso; linarith
    · exfalso; linarith
    · rfl
  · split_ifs with h1 h2
    · exfalso; linarith
    · exfalso; linarith
    · rfl
  · split_ifs with h1 h2
    · rfl
    · rfl
    · exfalso
      apply h2
      linarith
  · split_ifs with h1 h2
    · rfl
    · rfl
    · exfalso
      apply h1
      linarith

/-- Witness for C1 at margin 1/2, band (20, 23), temperature 25. -/
theorem margin_activation_spec_witness :
    (margin_ac_on (1/2) 20 23 25 = true ↔
      ((25 : ℚ) > 23 + 1/2 ∨ (25 : ℚ) < 20 - 1/2)) ∧
    margin_ac_on (1/2) 20 23 (20 - 1/2) = false ∧
    margin_ac_on (1/2) 20 23 (23 + 1/2) = false ∧
    margin_ac_on (1/2) 20 23 (20 - 1/2 - 1/100) = true ∧
    margin_ac_on (1/2) 20 23 (23 + 1/2 + 1/100) = true :=
  margin_activation_spec (1/2) 20 23 25 (by norm_num) (by norm_num)

/-- Claim C5: the 4-D nearest-action quantizer is total with range [0, 39],
the defensive out-of-range clamp in `act` is never taken (the clamp
expression is the identity on the quantizer output), and `act` always
returns an action index in [0, 39]. -/
theorem quantizer_total_act_in_range :
    (∀ d : ℚ × ℚ × ℚ × ℚ, find_best_action_index d < 40 ∧
      (if DISCRETE_ACTIONS.length ≤ find_best_action_index d
        then DISCRETE_ACTIONS.length - 1
        else find_best_action_index d) = find_best_action_index d) ∧
    (∀ (c : RuleBasedControllerDiscrete) (obs : Fin 15 → ℚ) (tp cp : ℤ),
      (act c obs tp cp).1 < 40) := by
  have hlen : DISCRETE_ACTIONS.length = 40 := rfl
  constructor
  · intro d
    have h := find_best_action_index_lt d
    refine ⟨h, ?_⟩
    rw [if_neg]
    rw [hlen]
    omega
  · intro c obs tp cp
    rw [act_fst]
    exact find_best_action_index_lt _

set_option maxRecDepth 1000000 in
/-- Claim C6: quantizing any of the 40 table entries returns that entry's
own index (idempotence of the quantizer on table-resident points). -/
theorem quantizer_idempotent_on_table :
    ∀ i : Fin 40,
      find_best_action_index (DISCRETE_ACTIONS.getD i.val (0, 0, 0, 0)) = i.val := by
  with_unfolding_all decide

/-- Floor division by `TEMP_THRESHOLD = 1` is the identity: the residual of
the patience escalation equals the patience counter itself. -/
theorem fdiv_one_eq (a : ℤ) : Int.fdiv a 1 = a := by
  rcases a with n | n
  · cases n with
    | zero => rfl
    | succ k =>
      have h : Int.fdiv (Int.ofNat (k + 1)) 1 = Int.ofNat ((k + 1) / 1) := rfl
      rw [h, Nat.div_one]
  · have h : Int.fdiv (Int.negSucc n) 1 = Int.negSucc (n / 1) := rfl
    rw [h, Nat.div_one]

/-- Claim C7: the window-fan speed rule returns 0 below 800 ppm, 1/2 on
[800, 1000), 3/4 on [1000, 1200) and 1 from 1200 on (lower bounds
inclusive), is monotonically non-decreasing in CO2, and takes the stated
values at the six probe points 799, 800, 999, 1000, 1199, 1200. -/
theorem window_fan_speed_spec :
    (∀ a b : ℚ, a ≤ b → decide_window_fan_speed a ≤ decide_window_fan_speed b) ∧
    (∀ co2 : ℚ,
      (co2 < 800 → decide_window_fan_speed co2 = 0) ∧
      (800 ≤ co2 → co2 < 1000 → decide_window_fan_speed co2 = 1/2) ∧
      (1000 ≤ co2 → co2 < 1200 → decide_window_fan_speed co2 = 3/4) ∧
      (1200 ≤ co2 → decide_window_fan_speed co2 = 1)) ∧
    decide_window_fan_speed 799 = 0 ∧
    decide_window_fan_speed 800 = 1/2 ∧
    decide_window_fan_speed 999 = 1/2 ∧
    decide_window_fan_speed 1000 = 3/4 ∧
    decide_window_fan_speed 1199 = 3/4 ∧
    decide_window_fan_speed 1200 = 1 := by
  refine ⟨?_, ?_, ?_, ?_, ?_, ?_, ?_, ?_⟩
  · intro a b hab
    unfold decide_window_fan_speed
    split_ifs <;> linarith
  · intro co2
    refine ⟨fun h1 => ?_, fun h1 h2 => ?_, fun h1 h2 => ?_, fun h1 => ?_⟩ <;>
      unfold decide_window_fan_speed
    · rw [if_pos h1]
    · rw [if_neg (by linarith), if_pos h2]
    · rw [if_neg (by linarith), if_neg (by linarith), if_pos h2]
    · rw [if_neg (by linarith), if_neg (by linarith), if_neg (by linarith)]
  all_goals norm_num [decide_window_fan_speed]

/-- Witness for C7: monotonicity applied at 500 ≤ 900 and the band value
at 900 ppm. -/
theorem window_fan_speed_spec_witness :
    decide_window_fan_speed 500 ≤ decide_window_fan_speed 900 ∧
    decide_window_fan_speed 900 = 1/2 :=
  ⟨window_fan_speed_spec.1 500 900 (by norm_num),
   (window_fan_speed_spec.2.1 900).2.1 (by norm_num) (by norm_num)⟩

/-- Claim C8: the comfort band selector is pure and total: every month in
the configured winter set yields (20, 23) and every other month — in range
or not — yields (23, 26); the default winter set is {11, 12, 1, 2, 3}. -/
theorem comfort_range_spec :
    (∀ (c : RuleBasedControllerDiscrete) (month : ℤ),
      (month ∈ c.winter_months → c.get_comfort_range month = (20, 23)) ∧
      (month ∉ c.winter_months → c.get_comfort_range month = (23, 26))) ∧
    defaultController.winter_months = [11, 12, 1, 2, 3] := by
  refine ⟨fun c month => ⟨fun h => ?_, fun h => ?_⟩, rfl⟩
  · simp [RuleBasedControllerDiscrete.get_comfort_range, h]
  · simp [RuleBasedControllerDiscrete.get_comfort_range, h]

/-- Witness for C8: month 12 is in the default winter set, month 13 (out of
the 1–12 range) is not. -/
theorem comfort_range_spec_witness :
    defaultController.get_comfort_range 12 = (20, 23) ∧
    defaultController.get_comfort_range 13 = (23, 26) :=
  ⟨(comfort_range_spec.1 defaultController 12).1 (by decide),
   (comfort_range_spec.1 defaultController 13).2 (by decide)⟩

/-- Claim C3: for non-negative input counters, `act` returns temp patience
tp + 1 exactly when the air temperature is strictly outside the month's
comfort band and 0 otherwise, and CO2 patience cp + 1 exactly when CO2 is
strictly above 800 and 0 otherwise. -/
theorem patience_update_spec (c : RuleBasedControllerDiscrete)
    (obs : Fin 15 → ℚ) (tp cp : ℤ) (htp : 0 ≤ tp) (hcp : 0 ≤ cp) :
    (act c obs tp cp).2.1 =
      (if obs 7 > (c.get_comfort_range (pyInt (obs 0))).2 ∨
          obs 7 < (c.get_comfort_range (pyInt (obs 0))).1
        then tp + 1 else 0) ∧
    (act c obs tp cp).2.2 = (if obs 10 > 800 then cp + 1 else 0) := by
  constructor <;> rfl

set_option maxRecDepth 1000000 in
/-- Witness for C3 at an observation inside the comfort band with low CO2
(month 6, 24 °C, 400 ppm): both counters reset to 0. -/
theorem patience_update_spec_witness :
    (act defaultController
        (fun i => if i.val = 0 then 6 else if i.val = 7 then 24
          else if i.val = 10 then 400 else 0) 0 0).2.1 = 0 ∧
    (act defaultController
        (fun i => if i.val = 0 then 6 else if i.val = 7 then 24
          else if i.val = 10 then 400 else 0) 0 0).2.2 = 0 := by
  have h := patience_update_spec defaultController
    (fun i => if i.val = 0 then 6 else if i.val = 7 then 24
      else if i.val = 10 then 400 else 0) 0 0 le_rfl le_rfl
  exact ⟨h.1.trans (by with_unfolding_all decide),
         h.2.trans (by with_unfolding_all decide)⟩

set_option maxRecDepth 1000000 in
/-- C4 counterexample: on the observation with month 7, air temperature
30.0 and CO2 1300 (both input counters 0), `act` returns action index 11,
not 15 as claimed. -/
theorem scenario_b_counterexample :
    (act defaultController
        (fun i => if i.val = 0 then 7 else if i.val = 7 then 30
          else if i.val = 10 then 1300 else 0) 0 0).1 = 11 ∧
    (act defaultController
        (fun i => if i.val = 0 then 7 else if i.val = 7 then 30
          else if i.val = 10 then 1300 else 0) 0 0).1 ≠ 15 := by
  with_unfolding_all decide

set_option maxRecDepth 1000000 in
/-- C4 amended: on that observation `act` increments temp patience to 1,
which escalates the temperature index from 4 (pair (24, 25)) down to 3
(pair (23, 24)); the desired action is [23, 24, 1.0, 1.0] and the returned
index is 11, with both counters returned as 1. -/
theorem scenario_b_value :
    act defaultController
        (fun i => if i.val = 0 then 7 else if i.val = 7 then 30
          else if i.val = 10 then 1300 else 0) 0 0 = (11, 1, 1) ∧
    desired_action_of 23 26 30 1300 1 1 = (23, 24, 1, 1) := by
  with_unfolding_all decide

set_option maxRecDepth 1000000 in
/-- Claim C9: on the observation with month 6, air temperature 24.5 and CO2
400 (both input counters 0), climate control is inactive, the desired
continuous action is [5, 50, 0.0, 0.0], and `act` returns action index 36
(and resets both counters). -/
theorem scenario_c_value :
    act defaultController
        (fun i => if i.val = 0 then 6 else if i.val = 7 then 49/2
          else if i.val = 10 then 400 else 0) 0 0 = (36, 0, 0) ∧
    ac_on 23 26 (49/2) = false ∧
    desired_action_of 23 26 (49/2) 400 0 0 = (5, 50, 0, 0) := by
  with_unfolding_all decide

/-- The comfort range is always one of the two fixed bands. -/
theorem get_comfort_range_cases (c : RuleBasedControllerDiscrete) (month : ℤ) :
    c.get_comfort_range month = (20, 23) ∨ c.get_comfort_range month = (23, 26) := by
  unfold RuleBasedControllerDiscrete.get_comfort_range
  split_ifs
  · exact Or.inl rfl
  · exact Or.inr rfl

/-- With the AC off, the temperature index is forced to the off-like 0. -/
theorem temp_index_off (t_low t_high air_temp : ℚ) (utp : ℤ) :
    temp_index_of t_low t_high air_temp utp false = 0 := by
  norm_num [temp_index_of, DISCRETE_ACTIONS_TEMP]

/-- With the AC on and a positive updated patience counter, the escalated
temperature index lies in [1, 9]. -/
theorem temp_index_range (t_low t_high air_temp : ℚ) (utp : ℤ)
    (hutp : 1 ≤ utp)
    (hon : ac_on t_low t_high air_temp = true) :
    1 ≤ temp_index_of t_low t_high air_temp utp true ∧
    temp_index_of t_low t_high air_temp utp true ≤ 9 := by
  have hb := find_best_action_index_temp_lt
    ((base_setpoints t_low t_high true).1, (base_setpoints t_low t_high true).2.1)
  have hres : Int.fdiv utp TEMP_THRESHOLD = utp := fdiv_one_eq utp
  by_cases h1 : air_temp > t_high
  · simp only [temp_index_of, hres]
    norm_num [h1, DISCRETE_ACTIONS_TEMP]
  · by_cases h2 : air_temp < t_low
    · simp only [temp_index_of, hres]
      norm_num [h1, h2, DISCRETE_ACTIONS_TEMP]
      omega
    · exfalso
      rw [ac_on, if_neg h1, if_neg h2] at hon
      exact Bool.false_ne_true hon

/-- The escalated CO2 index is always the claimed minimum and lies in
[0, 3] for a non-negative updated counter. -/
theorem co2_index_formula (wf_speed : ℚ) (ucp : ℤ) (hucp : 0 ≤ ucp) :
    co2_index_of wf_speed ucp =
      min ((find_best_action_index_co2 wf_speed : ℤ) + Int.fdiv ucp TEMP_THRESHOLD) 3 ∧
    0 ≤ co2_index_of wf_speed ucp ∧ co2_index_of wf_speed ucp ≤ 3 := by
  have hb := find_best_action_index_co2_lt wf_speed
  have hres : Int.fdiv ucp TEMP_THRESHOLD = ucp := fdiv_one_eq ucp
  simp only [co2_index_of, hres]
  norm_num [DISCRETE_ACTIONS_CO2]
  omega

/-- Claim C2: with residual = patience // TEMP_THRESHOLD (= patience // 1),
the temperature-table index computed in `act` — escalation plus the final
clamp — equals max(base − residual, 1) when the AC is active and the air
temperature is strictly above the high bound, and min(base + residual, 9)
when active and strictly below the low bound; the CO2/window-fan index
always equals min(base + residual, 3); and both final indices lie in their
tables' valid ranges [0, 9] and [0, 3]. -/
theorem escalation_formula_spec (t_low t_high air_temp wf_speed : ℚ)
    (utp ucp : ℤ) (hband : t_low ≤ t_high) (hutp : 0 ≤ utp) (hucp : 0 ≤ ucp) :
    (air_temp > t_high →
      temp_index_of t_low t_high air_temp utp (ac_on t_low t_high air_temp) =
        max ((find_best_action_index_temp
            ((base_setpoints t_low t_high (ac_on t_low t_high air_temp)).1,
             (base_setpoints t_low t_high (ac_on t_low t_high air_temp)).2.1) : ℤ)
          - Int.fdiv utp TEMP_THRESHOLD) 1) ∧
    (air_temp < t_low →
      temp_index_of t_low t_high air_temp utp (ac_on t_low t_high air_temp) =
        min ((find_best_action_index_temp
            ((base_setpoints t_low t_high (ac_on t_low t_high air_temp)).1,
             (base_setpoints t_low t_high (ac_on t_low t_high air_temp)).2.1) : ℤ)
          + Int.fdiv utp TEMP_THRESHOLD) 9) ∧
    (co2_index_of wf_speed ucp =
      min ((find_best_action_index_co2 wf_speed : ℤ) + Int.fdiv ucp TEMP_THRESHOLD) 3) ∧
    (0 ≤ temp_index_of t_low t_high air_temp utp (ac_on t_low t_high air_temp) ∧
      temp_index_of t_low t_high air_temp utp (ac_on t_low t_high air_temp) ≤ 9 ∧
      0 ≤ co2_index_of wf_speed ucp ∧ co2_index_of wf_speed ucp ≤ 3) := by
  have hres : Int.fdiv utp TEMP_THRESHOLD = utp := fdiv_one_eq utp
  have hlen9 : ((DISCRETE_ACTIONS_TEMP.length : ℤ) - 1) = 9 := by
    norm_num [DISCRETE_ACTIONS_TEMP]
  have hco := co2_index_formula wf_speed ucp hucp
  refine ⟨?_, ?_, hco.1, ?_, ?_, hco.2.1, hco.2.2⟩
  · intro h1
    have hon : ac_on t_low t_high air_temp = true := by
      unfold ac_on
      rw [if_pos h1]
    rw [hon]
    have hb := find_best_action_index_temp_lt
      ((base_setpoints t_low t_high true).1, (base_setpoints t_low t_high true).2.1)
    simp only [temp_index_of, hres, hlen9]
    norm_num [h1]
    omega
  · intro h2
    have hnot : ¬(air_temp > t_high) := by linarith
    have hon : ac_on t_low t_high air_temp = true := by
      unfold ac_on
      rw [if_neg hnot, if_pos h2]
    rw [hon]
    have hb := find_best_action_index_temp_lt
      ((base_setpoints t_low t_high true).1, (base_setpoints t_low t_high true).2.1)
    simp only [temp_index_of, hres, hlen9]
    norm_num [h2, hnot]
    omega
  · simp only [temp_index_of, hres, hlen9]
    omega
  · simp only [temp_index_of, hres, hlen9]
    omega

set_option maxRecDepth 1000000 in
/-- Witness for C2 at band (23, 26), temperature 30 (too hot), window-fan
speed 1, both updated counters 1: the temperature index is pulled from
base 4 down to 3, and the CO2 index saturates at 3. -/
theorem escalation_formula_spec_witness :
    temp_index_of 23 26 30 1 (ac_on 23 26 30) = 3 ∧ co2_index_of 1 1 = 3 := by
  have h := escalation_formula_spec 23 26 30 1 1 1 (by norm_num) (by norm_num) (by norm_num)
  exact ⟨(h.1 (by norm_num)).trans (by with_unfolding_all decide),
         h.2.2.1.trans (by with_unfolding_all decide)⟩

/-- `desired_action_of`, spelled out componentwise. -/
theorem desired_action_of_eq (t_low t_high air_temp air_co2 : ℚ) (utp ucp : ℤ) :
    desired_action_of t_low t_high air_temp air_co2 utp ucp =
      ((DISCRETE_ACTIONS_TEMP.getD
          (temp_index_of t_low t_high air_temp utp
            (ac_on t_low t_high air_temp)).toNat (0, 0)).1,
       (DISCRETE_ACTIONS_TEMP.getD
          (temp_index_of t_low t_high air_temp utp
            (ac_on t_low t_high air_temp)).toNat (0, 0)).2,
       (base_setpoints t_low t_high (ac_on t_low t_high air_temp)).2.2,
       DISCRETE_ACTIONS_CO2.getD
          (co2_index_of (decide_window_fan_speed air_co2) ucp).toNat 0) := rfl

/-- With the AC on, the fan flag of the base setpoints is 1. -/
theorem base_setpoints_fan_on (t_low t_high : ℚ) :
    (base_setpoints t_low t_high true).2.2 = 1 := rfl

/-- With the AC off, the fan flag of the base setpoints is 0. -/
theorem base_setpoints_fan_off (t_low t_high : ℚ) :
    (base_setpoints t_low t_high false).2.2 = 0 := rfl

set_option maxRecDepth 1000000 in
/-- Exact-match quantization, active shape: any 4-vector made of a
temperature pair from table index 1–9, fan flag 1, and a window-fan speed
from the CO2 table equals the `DISCRETE_ACTIONS` entry 4·(n − 1) + m and
quantizes to exactly that index. -/
theorem find_best_active_shape :
    ∀ n : Fin 10, 1 ≤ n.val → ∀ m : Fin 4,
      find_best_action_index ((DISCRETE_ACTIONS_TEMP.getD n.val (0, 0)).1,
        (DISCRETE_ACTIONS_TEMP.getD n.val (0, 0)).2, 1,
        DISCRETE_ACTIONS_CO2.getD m.val 0) = 4 * (n.val - 1) + m.val ∧
      ((DISCRETE_ACTIONS_TEMP.getD n.val (0, 0)).1,
        (DISCRETE_ACTIONS_TEMP.getD n.val (0, 0)).2, (1 : ℚ),
        DISCRETE_ACTIONS_CO2.getD m.val 0) =
        DISCRETE_ACTIONS.getD (4 * (n.val - 1) + m.val) (0, 0, 0, 0) := by
  with_unfolding_all decide

set_option maxRecDepth 1000000 in
/-- Exact-match quantization, off-like shape: (5, 50, 0, w) with w from the
CO2 table equals the `DISCRETE_ACTIONS` entry 36 + m and quantizes to
exactly that index. -/
theorem find_best_off_shape :
    ∀ m : Fin 4,
      find_best_action_index ((5 : ℚ), (50 : ℚ), (0 : ℚ),
        DISCRETE_ACTIONS_CO2.getD m.val 0) = 36 + m.val ∧
      ((5 : ℚ), (50 : ℚ), (0 : ℚ), DISCRETE_ACTIONS_CO2.getD m.val 0) =
        DISCRETE_ACTIONS.getD (36 + m.val) (0, 0, 0, 0) := by
  with_unfolding_all decide

/-- The off-band/off-block equivalence of claim C10 at the `actCore` level:
for non-negative input counters, the returned index is in the off-like
block {36, 37, 38, 39} iff the air temperature lies within the month's
comfort band (bounds included); when strictly outside the band the index is
at most 35; and the final desired 4-D vector is always a table entry. -/
theorem actCore_off_block (c : RuleBasedControllerDiscrete) (month : ℤ)
    (air_temp air_co2 : ℚ) (tp cp : ℤ) (htp : 0 ≤ tp) (hcp : 0 ≤ cp) :
    ((actCore c month air_temp air_co2 tp cp).1 ∈ ([36, 37, 38, 39] : List ℕ) ↔
      (c.get_comfort_range month).1 ≤ air_temp ∧
        air_temp ≤ (c.get_comfort_range month).2) ∧
    ((air_temp > (c.get_comfort_range month).2 ∨
        air_temp < (c.get_comfort_range month).1) →
      (actCore c month air_temp air_co2 tp cp).1 ≤ 35) ∧
    (∃ j : Fin 40,
      desired_action_of (c.get_comfort_range month).1 (c.get_comfort_range month).2
          air_temp air_co2
          (updated_temp_patience (c.get_comfort_range month).1
            (c.get_comfort_range month).2 air_temp tp)
          (updated_co2_patience air_co2 cp) =
        DISCRETE_ACTIONS.getD j.val (0, 0, 0, 0)) := by
  have hfst : (actCore c month air_temp air_co2 tp cp).1 = find_best_action_index
      (desired_action_of (c.get_comfort_range month).1 (c.get_comfort_range month).2
        air_temp air_co2
        (updated_temp_patience (c.get_comfort_range month).1
          (c.get_comfort_range month).2 air_temp tp)
        (updated_co2_patience air_co2 cp)) := by
    have h := find_best_action_index_lt
      (desired_action_of (c.get_comfort_range month).1 (c.get_comfort_range month).2
        air_temp air_co2
        (updated_temp_patience (c.get_comfort_range month).1
          (c.get_comfort_range month).2 air_temp tp)
        (updated_co2_patience air_co2 cp))
    have hlen : DISCRETE_ACTIONS.length = 40 := rfl
    simp only [actCore]
    rw [if_neg]
    rw [hlen]
    omega
  have hucp0 : 0 ≤ updated_co2_patience air_co2 cp := by
    unfold updated_co2_patience
    split_ifs <;> omega
  obtain ⟨hm0, hm3⟩ := (co2_index_formula (decide_window_fan_speed air_co2)
    (updated_co2_patience air_co2 cp) hucp0).2
  by_cases hout : air_temp > (c.get_comfort_range month).2 ∨
      air_temp < (c.get_comfort_range month).1
  · -- the AC is active: the index lands in the 0–35 range
    have hon : ac_on (c.get_comfort_range month).1 (c.get_comfort_range month).2
        air_temp = true := by
      unfold ac_on
      rcases hout with h | h
      · rw [if_pos h]
      · split_ifs with h1
        · rfl
        · rfl
    have hutp1 : updated_temp_patience (c.get_comfort_range month).1
        (c.get_comfort_range month).2 air_temp tp = tp + 1 := if_pos hout
    obtain ⟨hti1, hti9⟩ := temp_index_range (c.get_comfort_range month).1
      (c.get_comfort_range month).2 air_temp (tp + 1) (by omega) hon
    rw [desired_action_of_eq, hon, hutp1, base_setpoints_fan_on] at hfst ⊢
    have hfa := find_best_active_shape
      ⟨(temp_index_of (c.get_comfort_range month).1 (c.get_comfort_range month).2
          air_temp (tp + 1) true).toNat, by omega⟩ (by simp only [Fin.val_mk]; omega)
      ⟨(co2_index_of (decide_window_fan_speed air_co2)
          (updated_co2_patience air_co2 cp)).toNat, by omega⟩
    simp only [Fin.val_mk] at hfa
    rw [hfst, hfa.1]
    refine ⟨?_, ?_, ?_⟩
    · constructor
      · intro hmem
        exfalso
        simp only [List.mem_cons, List.not_mem_nil, or_false] at hmem
        rcases hmem with h | h | h | h <;> omega
      · intro hband
        exfalso
        rcases hout with h | h
        · linarith [hband.2]
        · linarith [hband.1]
    · intro _
      omega
    · exact ⟨⟨4 * ((temp_index_of (c.get_comfort_range month).1
          (c.get_comfort_range month).2 air_temp (tp + 1) true).toNat - 1) +
          (co2_index_of (decide_window_fan_speed air_co2)
            (updated_co2_patience air_co2 cp)).toNat, by omega⟩, hfa.2⟩
  · -- inside the band: the AC is off and the index lands in 36–39
    push_neg at hout
    have hoff : ac_on (c.get_comfort_range month).1 (c.get_comfort_range month).2
        air_temp = false := by
      unfold ac_on
      rw [if_neg (not_lt.mpr hout.1), if_neg (not_lt.mpr hout.2)]
    have hutp0 : updated_temp_patience (c.get_comfort_range month).1
        (c.get_comfort_range month).2 air_temp tp = 0 := by
      unfold updated_temp_patience
      rw [if_neg]
      push_neg
      exact hout
    rw [desired_action_of_eq, hoff, hutp0, base_setpoints_fan_off,
      temp_index_off] at hfst ⊢
    have hf0 := find_best_off_shape
      ⟨(co2_index_of (decide_window_fan_speed air_co2)
          (updated_co2_patience air_co2 cp)).toNat, by omega⟩
    simp only [Fin.val_mk] at hf0
    have hpair : DISCRETE_ACTIONS_TEMP.getD (Int.toNat 0) (0, 0) = ((5 : ℚ), (50 : ℚ)) := rfl
    rw [hpair] at hfst ⊢
    rw [hfst, hf0.1]
    refine ⟨?_, ?_, ?_⟩
    · constructor
      · intro _
        exact ⟨hout.2, hout.1⟩
      · intro _
        simp only [List.mem_cons, List.not_mem_nil, or_false]
        omega
    · intro hcontra
      exfalso
      rcases hcontra with h | h
      · linarith [hout.1]
      · linarith [hout.2]
    · exact ⟨⟨36 + (co2_index_of (decide_window_fan_speed air_co2)
          (updated_co2_patience air_co2 cp)).toNat, by omega⟩, hf0.2⟩

/-- Claim C10: for every 15-element observation and non-negative input
counters, the action index `act` returns lies in the off-like block
{36, 37, 38, 39} if and only if the air temperature lies within the month's
comfort band (bounds inclusive); whenever the temperature is strictly
outside the band (climate control active) the index is at most 35; and the
final desired 4-D vector always matches a table entry exactly. -/
theorem off_block_iff_in_band (c : RuleBasedControllerDiscrete)
    (obs : Fin 15 → ℚ) (tp cp : ℤ) (htp : 0 ≤ tp) (hcp : 0 ≤ cp) :
    ((act c obs tp cp).1 ∈ ([36, 37, 38, 39] : List ℕ) ↔
      (c.get_comfort_range (pyInt (obs 0))).1 ≤ obs 7 ∧
        obs 7 ≤ (c.get_comfort_range (pyInt (obs 0))).2) ∧
    ((obs 7 > (c.get_comfort_range (pyInt (obs 0))).2 ∨
        obs 7 < (c.get_comfort_range (pyInt (obs 0))).1) →
      (act c obs tp cp).1 ≤ 35) ∧
    (∃ j : Fin 40,
      desired_action_of (c.get_comfort_range (pyInt (obs 0))).1
          (c.get_comfort_range (pyInt (obs 0))).2 (obs 7) (obs 10)
          (updated_temp_patience (c.get_comfort_range (pyInt (obs 0))).1
            (c.get_comfort_range (pyInt (obs 0))).2 (obs 7) tp)
          (updated_co2_patience (obs 10) cp) =
        DISCRETE_ACTIONS.getD j.val (0, 0, 0, 0)) :=
  actCore_off_block c (pyInt (obs 0)) (obs 7) (obs 10) tp cp htp hcp

set_option maxRecDepth 1000000 in
/-- Witness for C10 at month 6, air temperature 24 (inside the 23–26 band)
and CO2 500: the returned index is in the off-like block. -/
theorem off_block_iff_in_band_witness :
    (act defaultController
        (fun i => if i.val = 0 then 6 else if i.val = 7 then 24
          else if i.val = 10 then 500 else 0) 0 0).1 ∈ ([36, 37, 38, 39] : List ℕ) :=
  (off_block_iff_in_band defaultController
      (fun i => if i.val = 0 then 6 else if i.val = 7 then 24
        else if i.val = 10 then 500 else 0) 0 0 le_rfl le_rfl).1.mpr
    (by with_unfolding_all decide)

end RuleBased
